import Mathlib

/-!
Verification of the Tuya BLE lock platform (custom_components/tuya_ble/lock.py).

The file models the lock platform as a shallow embedding: the static mapping
registry is nested association-list data, the entity adapter methods are pure
functions, and the commands (async_lock / async_unlock) are modelled by the
list of operations they perform on the external datapoint store and on the
optional setter override, in order.
-/

namespace TuyaBLELockSpec

/-- A Python runtime value as stored in a datapoint, with the truthiness
coercion performed by the builtin bool(...). Only the shapes relevant to this
component are modelled. -/
inductive PyValue where
  | pbool (b : Bool)
  | pint (n : Int)
  | pstr (s : String)
  | pbytes (bs : List Nat)
deriving DecidableEq, Repr

/-- Python bool(value): False, 0, empty string and empty bytes are falsy. -/
def PyValue.toBool : PyValue → Bool
  | .pbool b => b
  | .pint n => decide (n ≠ 0)
  | .pstr s => decide (s ≠ "")
  | .pbytes bs => decide (bs ≠ [])

/-- Modelled from the spec: the datapoint type enumeration of the external
tuya_ble client library (not under src/); the lock platform only ever uses the
boolean member DT_BOOL. -/
inductive TuyaBLEDataPointType where
  | DT_RAW
  | DT_BOOL
  | DT_VALUE
  | DT_STRING
  | DT_ENUM
  | DT_BITMAP
deriving DecidableEq, Repr

/-- Modelled from the spec: a datapoint of the external device client,
identified by an integer id, holding a typed current value. -/
structure TuyaBLEDataPoint where
  id : Nat
  type : TuyaBLEDataPointType
  value : PyValue
deriving DecidableEq, Repr

/-- Modelled from the spec: the external datapoint store, keyed by integer id.
lookup models the direct indexing datapoints[id] (a Datapoint or None, no
creation); get_or_create models get_or_create(id, type, default), which may
also return None when the datapoint could not be obtained. Both are abstract
oracles: no behaviour beyond the interface is assumed. -/
structure TuyaBLEDataPoints where
  lookup : Nat → Option TuyaBLEDataPoint
  get_or_create : Nat → TuyaBLEDataPointType → PyValue → Option TuyaBLEDataPoint

/-- Modelled from the spec: the external device client object; the lock
platform only reaches its datapoint store. -/
structure TuyaBLEDevice where
  datapoints : TuyaBLEDataPoints

/-- Modelled from the spec: the device/product descriptor, exposing the
category string and the product-id string. -/
structure TuyaBLEProductInfo where
  category : String
  product_id : String
deriving DecidableEq, Repr

/-- The subset of the host LockEntityDescription actually populated by this
platform: key, display name and icon. -/
structure LockEntityDescription where
  key : String
  display : String
  icon : String
deriving DecidableEq, Repr

/-- A getter override receives the entity (whose observable content here is
its device and product) and returns the locked state or None. -/
def TuyaBLELockGetter := TuyaBLEDevice → TuyaBLEProductInfo → Option Bool

/-- An availability-predicate override, same calling convention. -/
def TuyaBLELockIsAvailable := TuyaBLEDevice → TuyaBLEProductInfo → Bool

/-- A setter override performs external effects, so it is modelled as an
opaque reference (a tag); invoking it is recorded in the command trace. -/
abbrev TuyaBLELockSetterRef := Nat

/-- TuyaBLELockMapping from lock.py: entity description, datapoint id and the
three optional overrides, all defaulting to absent. -/
structure TuyaBLELockMapping where
  description : LockEntityDescription
  dp_id : Nat
  getter : Option TuyaBLELockGetter := none
  setter : Option TuyaBLELockSetterRef := none
  is_available : Option TuyaBLELockIsAvailable := none

/-- TuyaBLECategoryLockMapping from lock.py: the per-category product table.
The dict keys are product-id strings (the nominal list-of-strings key form is
unhashable in Python and never populated), modelled as an association list in
source order. -/
structure TuyaBLECategoryLockMapping where
  products : List (String × List TuyaBLELockMapping)

/-- Exact-match association-list lookup, the model of Python dict get /
membership on the string-keyed tables of this file. -/
def assocGet {α : Type} : List (String × α) → String → Option α
  | [], _ => none
  | (k, v) :: rest, key => if k = key then some v else assocGet rest key

/-- The single mapping literal of LOCK_TYPES: the "Drawer lock" entry, bound
to datapoint id 33, with no overrides. -/
def gumrixytMapping : TuyaBLELockMapping :=
  { description := { key := "lock", display := "Lock", icon := "mdi:lock" },
    dp_id := 33 }

/-- The category table of the "ms" entry of LOCK_TYPES. -/
def msCategory : TuyaBLECategoryLockMapping :=
  { products := [("gumrixyt", [gumrixytMapping])] }

/-- LOCK_TYPES from lock.py: the static registry, one category "ms" with one
product "gumrixyt" carrying a single mapping bound to datapoint id 33. -/
def LOCK_TYPES : List (String × TuyaBLECategoryLockMapping) :=
  [("ms", msCategory)]

/-- TuyaBLELock from lock.py: one adapter binds a device, its product
descriptor and one mapping. Leading underscores of the Python attribute names
are dropped. -/
structure TuyaBLELock where
  device : TuyaBLEDevice
  product : TuyaBLEProductInfo
  mapping : TuyaBLELockMapping

/-- The observable outcome of async_setup_entry: the list of invocations of
the async_add_entities callback, each with the entity list it was passed. -/
structure SetupResult where
  addCalls : List (List TuyaBLELock)

/-- All adapters constructed by a setup run, across every add-entities call. -/
def SetupResult.allEntities (r : SetupResult) : List TuyaBLELock :=
  r.addCalls.foldr (fun l acc => l ++ acc) []

/-- async_setup_entry from lock.py, generalised over the registry table.
Mirrors the source control flow: LOCK_TYPES.get(category) with an early
return before any add-entities call when absent (a present
TuyaBLECategoryLockMapping dataclass instance is always truthy); then the
product-id membership test and the truthiness test on the mapping list (None
and the empty list are both falsy); finally a single async_add_entities call
with the accumulated entity list. -/
def async_setup_entry_in (registry : List (String × TuyaBLECategoryLockMapping))
    (device : TuyaBLEDevice) (product : TuyaBLEProductInfo) : SetupResult :=
  match assocGet registry product.category with
  | none => { addCalls := [] }
  | some mappings =>
    let product_mappings : Option (List TuyaBLELockMapping) :=
      assocGet mappings.products product.product_id
    let entities : List TuyaBLELock :=
      match product_mappings with
      | some l =>
        if l.isEmpty then []
        else l.map (fun m => { device := device, product := product, mapping := m })
      | none => []
    { addCalls := [entities] }

/-- async_setup_entry from lock.py, specialised to the static LOCK_TYPES
registry as in the source. -/
def async_setup_entry (device : TuyaBLEDevice) (product : TuyaBLEProductInfo) :
    SetupResult :=
  async_setup_entry_in LOCK_TYPES device product

/-- TuyaBLELock.available from lock.py: start from the base entity
availability (super().available, an external input), and only when it is true
and an availability-predicate override is configured replace the result by the
override applied to (self, self._product). -/
def TuyaBLELock.available (e : TuyaBLELock) (superAvailable : Bool) : Bool :=
  let result := superAvailable
  match e.mapping.is_available with
  | some f => if result then f e.device e.product else result
  | none => result

/-- TuyaBLELock.is_locked from lock.py: a configured getter override fully
replaces the default logic; otherwise the datapoint at the mapping id is read
from the device store, absent means None, present means bool(value). -/
def TuyaBLELock.is_locked (e : TuyaBLELock) : Option Bool :=
  match e.mapping.getter with
  | some g => g e.device e.product
  | none =>
    match e.device.datapoints.lookup e.mapping.dp_id with
    | some datapoint => some datapoint.value.toBool
    | none => none

/-- One observable operation performed by a lock/unlock command, in order:
a get_or_create call on the datapoint store, an awaited set_value call on a
concrete datapoint object, or an invocation of the configured setter override
with (self, self._product, value) — self is implicit since a command only ever
passes the entity itself. -/
inductive LockEffect where
  | getOrCreate (dpId : Nat) (dtype : TuyaBLEDataPointType) (default : PyValue)
  | setValue (datapoint : TuyaBLEDataPoint) (value : PyValue)
  | setterCall (ref : TuyaBLELockSetterRef) (product : TuyaBLEProductInfo) (value : Bool)
deriving DecidableEq, Repr

/-- TuyaBLELock.async_lock from lock.py as its operation trace: with a setter
override, exactly one override call with True and nothing else; otherwise
get_or_create(dp_id, DT_BOOL, False) followed, when a datapoint was returned,
by await datapoint.set_value(True). -/
def TuyaBLELock.async_lock (e : TuyaBLELock) : List LockEffect :=
  match e.mapping.setter with
  | some ref => [.setterCall ref e.product true]
  | none =>
    match e.device.datapoints.get_or_create e.mapping.dp_id .DT_BOOL (.pbool false) with
    | some datapoint =>
      [.getOrCreate e.mapping.dp_id .DT_BOOL (.pbool false),
       .setValue datapoint (.pbool true)]
    | none =>
      [.getOrCreate e.mapping.dp_id .DT_BOOL (.pbool false)]

/-- TuyaBLELock.async_unlock from lock.py as its operation trace: identical to
async_lock except that the value written (by the override or by set_value) is
False. -/
def TuyaBLELock.async_unlock (e : TuyaBLELock) : List LockEffect :=
  match e.mapping.setter with
  | some ref => [.setterCall ref e.product false]
  | none =>
    match e.device.datapoints.get_or_create e.mapping.dp_id .DT_BOOL (.pbool false) with
    | some datapoint =>
      [.getOrCreate e.mapping.dp_id .DT_BOOL (.pbool false),
       .setValue datapoint (.pbool false)]
    | none =>
      [.getOrCreate e.mapping.dp_id .DT_BOOL (.pbool false)]

/-! ### Concrete fixtures used by the witness theorems -/

/-- A store with a single datapoint: lookup and get_or_create both return it
at its id and None elsewhere. -/
def singletonStore (dp : TuyaBLEDataPoint) : TuyaBLEDataPoints :=
  { lookup := fun i => if i = dp.id then some dp else none,
    get_or_create := fun i _ _ => if i = dp.id then some dp else none }

/-- A store with no datapoints where get_or_create also fails (device not
ready). -/
def emptyStore : TuyaBLEDataPoints :=
  { lookup := fun _ => none, get_or_create := fun _ _ _ => none }

/-- Datapoint 33 holding boolean true. -/
def dpTrue33 : TuyaBLEDataPoint := { id := 33, type := .DT_BOOL, value := .pbool true }

/-- Datapoint 33 holding boolean false. -/
def dpFalse33 : TuyaBLEDataPoint := { id := 33, type := .DT_BOOL, value := .pbool false }

/-- A device whose store holds datapoint 33 = true. -/
def deviceTrue33 : TuyaBLEDevice := { datapoints := singletonStore dpTrue33 }

/-- A device whose store holds datapoint 33 = false. -/
def deviceFalse33 : TuyaBLEDevice := { datapoints := singletonStore dpFalse33 }

/-- A device with an empty, non-creating store. -/
def emptyDevice : TuyaBLEDevice := { datapoints := emptyStore }

/-- The product descriptor of the supported drawer lock. -/
def msGumrixyt : TuyaBLEProductInfo := { category := "ms", product_id := "gumrixyt" }

/-- Adapter with no overrides over a device where datapoint 33 is true. -/
def lockPlain : TuyaBLELock :=
  { device := deviceTrue33, product := msGumrixyt, mapping := gumrixytMapping }

/-- Adapter with no overrides over a device where datapoint 33 is false. -/
def lockPlainFalse : TuyaBLELock :=
  { device := deviceFalse33, product := msGumrixyt, mapping := gumrixytMapping }

/-- Adapter with no overrides over a device with no datapoints. -/
def lockNoDp : TuyaBLELock :=
  { device := emptyDevice, product := msGumrixyt, mapping := gumrixytMapping }

/-- A mapping carrying a setter override (reference tag 7). -/
def setterMapping : TuyaBLELockMapping :=
  { description := { key := "lock", display := "Lock", icon := "mdi:lock" },
    dp_id := 33, setter := some 7 }

/-- Adapter whose mapping has a setter override. -/
def lockWithSetter : TuyaBLELock :=
  { device := deviceTrue33, product := msGumrixyt, mapping := setterMapping }

/-- A mapping carrying an availability-predicate override that always answers
false. -/
def availMapping : TuyaBLELockMapping :=
  { description := { key := "lock", display := "Lock", icon := "mdi:lock" },
    dp_id := 33, is_available := some (fun _ _ => false) }

/-- Adapter whose mapping has an availability-predicate override. -/
def lockAvailOverride : TuyaBLELock :=
  { device := emptyDevice, product := msGumrixyt, mapping := availMapping }

/-- A registry for exercising the empty-mapping-list branch of setup: one
category whose only product maps to an empty mapping list. -/
def emptyListCategory : TuyaBLECategoryLockMapping := { products := [("p0", [])] }

/-- The toy registry holding emptyListCategory under category "c0". -/
def emptyListRegistry : List (String × TuyaBLECategoryLockMapping) :=
  [("c0", emptyListCategory)]

/-! ### Theorems for the claims -/

/-- Claim C1: for every adapter without a setter override, when the store's
get_or_create(dp_id, DT_BOOL, False) yields a datapoint, async_lock performs
exactly that one get-or-create call followed by exactly one set_value(True)
call on the returned datapoint, and async_unlock performs the same
get-or-create followed by exactly one set_value(False) call. -/
theorem async_lock_unlock_default_path (e : TuyaBLELock) (d : TuyaBLEDataPoint)
    (hs : e.mapping.setter = none)
    (hd : e.device.datapoints.get_or_create e.mapping.dp_id .DT_BOOL (.pbool false)
            = some d) :
    e.async_lock
        = [.getOrCreate e.mapping.dp_id .DT_BOOL (.pbool false),
           .setValue d (.pbool true)]
    ∧ e.async_unlock
        = [.getOrCreate e.mapping.dp_id .DT_BOOL (.pbool false),
           .setValue d (.pbool false)] := by
  unfold TuyaBLELock.async_lock TuyaBLELock.async_unlock
  rw [hs, hd]
  exact ⟨rfl, rfl⟩

/-- Witness for C1 on the concrete drawer-lock adapter lockPlain, whose store
returns datapoint 33. -/
theorem async_lock_unlock_default_path_holds :
    TuyaBLELock.async_lock lockPlain
        = [.getOrCreate 33 .DT_BOOL (.pbool false), .setValue dpTrue33 (.pbool true)]
    ∧ TuyaBLELock.async_unlock lockPlain
        = [.getOrCreate 33 .DT_BOOL (.pbool false), .setValue dpTrue33 (.pbool false)] :=
  async_lock_unlock_default_path lockPlain dpTrue33 rfl rfl

/-- Claim C2: for every adapter without a getter override, is_locked is None
when the store holds no datapoint at the mapping id, and otherwise is the
boolean coercion of the stored value (true for stored true, false for stored
false). -/
theorem is_locked_no_getter (e : TuyaBLELock) (hg : e.mapping.getter = none) :
    (e.device.datapoints.lookup e.mapping.dp_id = none → e.is_locked = none)
    ∧ (∀ d, e.device.datapoints.lookup e.mapping.dp_id = some d →
        e.is_locked = some d.value.toBool) := by
  constructor
  · intro h
    unfold TuyaBLELock.is_locked
    rw [hg, h]
  · intro d h
    unfold TuyaBLELock.is_locked
    rw [hg, h]

/-- Witness for C2: datapoint 33 true yields locked, absent yields None,
false yields unlocked. -/
theorem is_locked_no_getter_holds :
    TuyaBLELock.is_locked lockPlain = some true
    ∧ TuyaBLELock.is_locked lockNoDp = none
    ∧ TuyaBLELock.is_locked lockPlainFalse = some false :=
  ⟨(is_locked_no_getter lockPlain rfl).2 dpTrue33 rfl,
   (is_locked_no_getter lockNoDp rfl).1 rfl,
   (is_locked_no_getter lockPlainFalse rfl).2 dpFalse33 rfl⟩

/-- Claim C6: for every adapter with a setter override, async_lock is exactly
one invocation of that override with (self, self.product, True) and
async_unlock exactly one with False; the traces contain no get-or-create and
no set_value, so the datapoint store is never touched. -/
theorem setter_override_trace (e : TuyaBLELock) (ref : TuyaBLELockSetterRef)
    (hs : e.mapping.setter = some ref) :
    e.async_lock = [.setterCall ref e.product true]
    ∧ e.async_unlock = [.setterCall ref e.product false] := by
  unfold TuyaBLELock.async_lock TuyaBLELock.async_unlock
  rw [hs]
  exact ⟨rfl, rfl⟩

/-- Witness for C6 on the adapter lockWithSetter whose override carries
reference tag 7. -/
theorem setter_override_trace_holds :
    TuyaBLELock.async_lock lockWithSetter = [.setterCall 7 msGumrixyt true]
    ∧ TuyaBLELock.async_unlock lockWithSetter = [.setterCall 7 msGumrixyt false] :=
  setter_override_trace lockWithSetter 7 rfl

/-- Claim C7: for every adapter without a setter override, when get_or_create
returns None, async_lock and async_unlock each complete normally with only
that single get-or-create operation: no set_value, no setter invocation, no
error (the functions are total and return a trace). -/
theorem lock_unlock_noop_no_datapoint (e : TuyaBLELock)
    (hs : e.mapping.setter = none)
    (hd : e.device.datapoints.get_or_create e.mapping.dp_id .DT_BOOL (.pbool false)
            = none) :
    e.async_lock = [.getOrCreate e.mapping.dp_id .DT_BOOL (.pbool false)]
    ∧ e.async_unlock = [.getOrCreate e.mapping.dp_id .DT_BOOL (.pbool false)] := by
  unfold TuyaBLELock.async_lock TuyaBLELock.async_unlock
  rw [hs, hd]
  exact ⟨rfl, rfl⟩

/-- Witness for C7 on the adapter lockNoDp whose store cannot create
datapoints. -/
theorem lock_unlock_noop_no_datapoint_holds :
    TuyaBLELock.async_lock lockNoDp = [.getOrCreate 33 .DT_BOOL (.pbool false)]
    ∧ TuyaBLELock.async_unlock lockNoDp = [.getOrCreate 33 .DT_BOOL (.pbool false)] :=
  lock_unlock_noop_no_datapoint lockNoDp rfl rfl

/-- Claim C10: for every adapter without a setter override, async_unlock
begins with the same creation call as async_lock — get_or_create with boolean
type and default False, not with the value being written — and when a
datapoint is obtained the set_value(False) follows, so lock and unlock differ
only in the written value. -/
theorem unlock_creation_args_match_lock (e : TuyaBLELock)
    (hs : e.mapping.setter = none) :
    e.async_unlock.head?
        = some (.getOrCreate e.mapping.dp_id .DT_BOOL (.pbool false))
    ∧ e.async_unlock.head? = e.async_lock.head?
    ∧ (∀ d,
        e.device.datapoints.get_or_create e.mapping.dp_id .DT_BOOL (.pbool false)
            = some d →
        e.async_unlock
            = [.getOrCreate e.mapping.dp_id .DT_BOOL (.pbool false),
               .setValue d (.pbool false)]) := by
  unfold TuyaBLELock.async_lock TuyaBLELock.async_unlock
  rw [hs]
  refine ⟨?_, ?_, ?_⟩
  · cases hd : e.device.datapoints.get_or_create e.mapping.dp_id .DT_BOOL (.pbool false) <;>
      simp [hd]
  · cases hd : e.device.datapoints.get_or_create e.mapping.dp_id .DT_BOOL (.pbool false) <;>
      simp [hd]
  · intro d hd
    rw [hd]

/-- Witness for C10 on the concrete adapter lockPlain. -/
theorem unlock_creation_args_match_lock_holds :
    TuyaBLELock.async_unlock lockPlain = [.getOrCreate 33 .DT_BOOL (.pbool false),
        .setValue dpTrue33 (.pbool false)]
    ∧ (TuyaBLELock.async_unlock lockPlain).head?
        = (TuyaBLELock.async_lock lockPlain).head? :=
  ⟨(unlock_creation_args_match_lock lockPlain rfl).2.2 dpTrue33 rfl,
   (unlock_creation_args_match_lock lockPlain rfl).2.1⟩

/-- Claim C3: for every adapter, availability is false whenever the base
entity is unavailable — for every configured override, so the override cannot
influence that case; when the base is available it is exactly the override's
answer if one is configured and true otherwise. -/
theorem available_base_gate (e : TuyaBLELock) :
    e.available false = false
    ∧ (∀ f, e.mapping.is_available = some f →
        e.available true = f e.device e.product)
    ∧ (e.mapping.is_available = none → e.available true = true) := by
  refine ⟨?_, ?_, ?_⟩
  · cases h : e.mapping.is_available <;> simp [TuyaBLELock.available, h]
  · intro f hf
    simp [TuyaBLELock.available, hf]
  · intro h
    simp [TuyaBLELock.available, h]

/-- Witness for C3: with an always-false override, base-unavailable still
yields false and base-available yields the override's false; without an
override, base-available yields true. -/
theorem available_base_gate_holds :
    TuyaBLELock.available lockAvailOverride false = false
    ∧ TuyaBLELock.available lockAvailOverride true = false
    ∧ TuyaBLELock.available lockPlain true = true :=
  ⟨(available_base_gate lockAvailOverride).1,
   (available_base_gate lockAvailOverride).2.1 (fun _ _ => false) rfl,
   (available_base_gate lockPlain).2.2 rfl⟩

/-- Claim C4: for every device whose product descriptor is category "ms" and
product id "gumrixyt", setup makes a single add-entities call carrying
exactly one adapter, whose mapping has datapoint id 33 and no getter, setter
or availability override. -/
theorem setup_ms_gumrixyt (device : TuyaBLEDevice) (product : TuyaBLEProductInfo)
    (hc : product.category = "ms") (hp : product.product_id = "gumrixyt") :
    ∃ m : TuyaBLELockMapping,
      (async_setup_entry device product).addCalls
          = [[{ device := device, product := product, mapping := m }]]
      ∧ m.dp_id = 33 ∧ m.getter = none ∧ m.setter = none ∧ m.is_available = none := by
  refine ⟨gumrixytMapping, ?_, rfl, rfl, rfl, rfl⟩
  simp [async_setup_entry, async_setup_entry_in, LOCK_TYPES, msCategory, assocGet,
    hc, hp, gumrixytMapping]

/-- Witness for C4 at a concrete device and the supported product pair. -/
theorem setup_ms_gumrixyt_holds :
    ∃ m : TuyaBLELockMapping,
      (async_setup_entry emptyDevice msGumrixyt).addCalls
          = [[{ device := emptyDevice, product := msGumrixyt, mapping := m }]]
      ∧ m.dp_id = 33 ∧ m.getter = none ∧ m.setter = none ∧ m.is_available = none :=
  setup_ms_gumrixyt emptyDevice msGumrixyt rfl rfl

/-- Claim C5: for every (category, product id) pair where the category is not
in LOCK_TYPES, or it is but the product id is not in its product table, setup
constructs zero adapters. -/
theorem setup_unknown_no_entities (device : TuyaBLEDevice)
    (product : TuyaBLEProductInfo)
    (h : assocGet LOCK_TYPES product.category = none
       ∨ ∃ cat, assocGet LOCK_TYPES product.category = some cat
           ∧ assocGet cat.products product.product_id = none) :
    (async_setup_entry device product).allEntities = [] := by
  unfold async_setup_entry async_setup_entry_in
  rcases h with h | ⟨cat, hc, hp⟩
  · rw [h]
    rfl
  · rw [hc]
    simp [hp, SetupResult.allEntities]

/-- Witness for C5: an unknown category and a known category with an unknown
product id both produce zero adapters. -/
theorem setup_unknown_no_entities_holds :
    (async_setup_entry emptyDevice { category := "xx", product_id := "y" }).allEntities
        = []
    ∧ (async_setup_entry emptyDevice { category := "ms", product_id := "zzz" }).allEntities
        = [] :=
  ⟨setup_unknown_no_entities emptyDevice { category := "xx", product_id := "y" }
      (Or.inl rfl),
   setup_unknown_no_entities emptyDevice { category := "ms", product_id := "zzz" }
      (Or.inr ⟨msCategory, rfl, rfl⟩)⟩

/-- Counterexample to claim C8 as stated: for a device with an unknown
category, setup performs zero add-entities calls, not exactly one — the
source returns early before reaching the callback. -/
theorem setup_unknown_category_not_one_call :
    ¬((async_setup_entry emptyDevice
        { category := "zz", product_id := "p" }).addCalls.length = 1) := by
  intro h
  simp [async_setup_entry, async_setup_entry_in, LOCK_TYPES, assocGet] at h

/-- Claim C8 as amended: when the device category is a key of LOCK_TYPES,
setup calls add-entities exactly once, passing in that single call the full
list of adapters built from the product's mapping list in order (empty when
the product id is unknown); when the category is unknown, the callback is not
called at all. -/
theorem add_entities_once_iff_category_known (device : TuyaBLEDevice)
    (product : TuyaBLEProductInfo) :
    (∀ cat, assocGet LOCK_TYPES product.category = some cat →
        (async_setup_entry device product).addCalls
          = [((assocGet cat.products product.product_id).getD []).map
               (fun m => { device := device, product := product, mapping := m })])
    ∧ (assocGet LOCK_TYPES product.category = none →
        (async_setup_entry device product).addCalls = []) := by
  constructor
  · intro cat hc
    unfold async_setup_entry async_setup_entry_in
    rw [hc]
    cases hp : assocGet cat.products product.product_id with
    | none => simp [hp]
    | some l =>
      cases l with
      | nil => simp [hp]
      | cons a as => simp [hp]
  · intro h
    unfold async_setup_entry async_setup_entry_in
    rw [h]

/-- Witness for the amended C8: one call with the single drawer-lock adapter
for the supported pair; zero calls for an unknown category. -/
theorem add_entities_once_iff_category_known_holds :
    (async_setup_entry emptyDevice msGumrixyt).addCalls
        = [[{ device := emptyDevice, product := msGumrixyt,
              mapping := gumrixytMapping }]]
    ∧ (async_setup_entry emptyDevice { category := "zz", product_id := "p" }).addCalls
        = [] :=
  ⟨(add_entities_once_iff_category_known emptyDevice msGumrixyt).1 msCategory rfl,
   (add_entities_once_iff_category_known emptyDevice
      { category := "zz", product_id := "p" }).2 rfl⟩

/-- Claim C9: for every registry, device and product where the category is
present and the product id maps to an empty mapping list, setup constructs
zero adapters — the truthiness test on the list makes an empty list behave
like an absent product id. Stated over the registry-generalised setup because
the shipped LOCK_TYPES holds no empty list. -/
theorem setup_empty_mapping_list_no_entities
    (registry : List (String × TuyaBLECategoryLockMapping))
    (device : TuyaBLEDevice) (product : TuyaBLEProductInfo)
    (cat : TuyaBLECategoryLockMapping)
    (hc : assocGet registry product.category = some cat)
    (hp : assocGet cat.products product.product_id = some []) :
    (async_setup_entry_in registry device product).allEntities = [] := by
  unfold async_setup_entry_in
  rw [hc]
  simp [hp, SetupResult.allEntities]

/-- Witness for C9 on a toy registry whose only product maps to an empty
mapping list. -/
theorem setup_empty_mapping_list_no_entities_holds :
    (async_setup_entry_in emptyListRegistry emptyDevice
        { category := "c0", product_id := "p0" }).allEntities = [] :=
  setup_empty_mapping_list_no_entities emptyListRegistry emptyDevice
    { category := "c0", product_id := "p0" } emptyListCategory rfl rfl

end TuyaBLELockSpec
